import Mathlib

/-!
# VEMaterial / VESubrenderFW_Skyplane

A shallow embedding of `src/VulkanEngine/VEMaterial.cpp` (mesh, material and
texture resources) and of `src/VulkanEngine/VESubrenderFW_Skyplane.cpp`
(`addEntity`).

Conventions of the embedding.

* Vulkan / VMA handles are natural numbers; `VK_NULL_HANDLE` is `0`.
* `float` values are rationals: the arithmetic of the embedding is exact.
* Every function of the source that talks to the device runs in a state
  `Sys σ`: an arbitrary device state `σ`, on which the helper functions that
  are not part of the two source files act as unknown functions (`Helpers σ`),
  together with the log of the calls made so far, arguments included.
* Out-parameters (`&m_vertexBuffer`, ...) are modelled by handing the helper
  the current contents of the out-parameter and storing what it returns.
-/

namespace ve

/-! ## Vulkan scalars -/

/-- Handles of the Vulkan and VMA C interfaces. -/
abbrev Handle := Nat

/-- The null handle. -/
def VK_NULL_HANDLE : Handle := 0

/-- Result codes: `0` is `VK_SUCCESS`, everything else reports a failure. -/
abbrev VkResult := Int

def VK_SUCCESS : VkResult := 0

abbrev VkFormat := Nat

def VK_FORMAT_R8G8B8A8_UNORM : VkFormat := 37

abbrev VkImageViewType := Nat

def VK_IMAGE_VIEW_TYPE_2D : VkImageViewType := 1

def VK_IMAGE_VIEW_TYPE_CUBE : VkImageViewType := 3

def VK_IMAGE_VIEW_TYPE_2D_ARRAY : VkImageViewType := 5

abbrev VkImageAspectFlags := Nat

def VK_IMAGE_ASPECT_COLOR_BIT : VkImageAspectFlags := 1

abbrev VkImageLayout := Nat

def VK_IMAGE_LAYOUT_UNDEFINED : VkImageLayout := 0

def VK_IMAGE_LAYOUT_SHADER_READ_ONLY_OPTIMAL : VkImageLayout := 5

abbrev VkImageCreateFlags := Nat

/-- The conversion `(uint32_t)n` of an unsigned value. -/
def toUInt32 (n : Nat) : Nat := n % 2 ^ 32

structure VkExtent2D where
  width : Nat
  height : Nat
deriving DecidableEq, Repr

structure VkDescriptorImageInfo where
  sampler : Handle
  imageView : Handle
  imageLayout : VkImageLayout
deriving DecidableEq, Repr

/-! ## Source geometry (Assimp) and engine vertices -/

structure aiVector3D where
  x : ℚ
  y : ℚ
  z : ℚ
deriving DecidableEq, Repr

structure vec3 where
  x : ℚ
  y : ℚ
  z : ℚ
deriving DecidableEq, Repr

structure vec2 where
  x : ℚ
  y : ℚ
deriving DecidableEq, Repr

/-- The engine vertex `vh::vhVertex`. -/
structure vhVertex where
  pos : vec3
  normal : vec3
  tangent : vec3
  texCoord : vec2
deriving DecidableEq, Repr

/-- A face `aiFace`: `mNumIndices` is the length of `mIndices`. -/
structure aiFace where
  mIndices : List Nat
deriving DecidableEq, Repr

/-- The source mesh `aiMesh`. The per-vertex arrays are lists; a null array
pointer is `none`. `mNumVertices` and `mNumFaces` are the lengths of
`mVertices` and `mFaces`. -/
structure aiMesh where
  mVertices : List aiVector3D
  mNormals : Option (List aiVector3D)
  mTangents : Option (List aiVector3D)
  mBitangents : Option (List aiVector3D)
  mTextureCoords0 : Option (List aiVector3D)
  mFaces : List aiFace
deriving DecidableEq, Repr

def aiFace.mNumIndices (f : aiFace) : Nat := f.mIndices.length

def aiMesh.mNumVertices (m : aiMesh) : Nat := m.mVertices.length

def aiMesh.mNumFaces (m : aiMesh) : Nat := m.mFaces.length

def aiMesh.HasNormals (m : aiMesh) : Bool :=
  m.mNormals.isSome && decide (0 < m.mNumVertices)

def aiMesh.HasTangentsAndBitangents (m : aiMesh) : Bool :=
  m.mTangents.isSome && m.mBitangents.isSome && decide (0 < m.mNumVertices)

def aiMesh.HasTextureCoords0 (m : aiMesh) : Bool :=
  m.mTextureCoords0.isSome && decide (0 < m.mNumVertices)

def aiVector3D.zero : aiVector3D := ⟨0, 0, 0⟩

/-- Array access `a[i]` on a per-vertex array. -/
def aiAt (a : List aiVector3D) (i : Nat) : aiVector3D := a.getD i aiVector3D.zero

/-- Array access `a[i]` on an optional per-vertex array. -/
def aiAtOpt (a : Option (List aiVector3D)) (i : Nat) : aiVector3D :=
  match a with
  | some l => aiAt l i
  | none => aiVector3D.zero

/-- The declaration `vh::vhVertex vertex;`: all attributes zero. -/
def vhVertex.fresh : vhVertex := ⟨⟨0, 0, 0⟩, ⟨0, 0, 0⟩, ⟨0, 0, 0⟩, ⟨0, 0⟩⟩

/-! ## Device state, call log and helper functions -/

/-- The decoded cube map `gli::texture_cube`, as far as the source reads it:
the two components of `extent()`, which are sizes and so not negative. The
pixel data is only seen by the upload helper, which receives the whole
value. -/
structure texture_cube where
  extent_x : Nat
  extent_y : Nat
  data : List Nat
deriving DecidableEq, Repr

/-- The members of `VETexture`; `m_name` is the name held by the base class
`VENamedClass`. `m_imageInfo` is the member read by
`VESubrenderFW_Skyplane::addEntity`. -/
structure VETexture where
  m_name : String
  m_image : Handle
  m_deviceAllocation : Handle
  m_imageView : Handle
  m_sampler : Handle
  m_format : VkFormat
  m_extent : VkExtent2D
  m_imageInfo : VkDescriptorImageInfo
deriving DecidableEq, Repr

/-- The calls the two source files make to code outside of them, with their
arguments (the device, allocator, queue and command pool of the renderer
apart, which are the same in every call). `operator_delete` is the release of
the storage of a texture at the end of a `delete` expression. -/
inductive Call where
  | vhBufCreateVertexBuffer (vertices : List vhVertex)
  | vhBufCreateIndexBuffer (indices : List Nat)
  | vmaDestroyBuffer (buffer : Handle) (allocation : Handle)
  | vhBufCreateTextureImage (basedir : String) (texNames : List String)
      (flags : VkImageCreateFlags)
  | vhBufCreateTexturecubeImage (texCube : texture_cube)
  | vhBufCreateImageView (image : Handle) (format : VkFormat)
      (viewType : VkImageViewType) (layerCount : Nat) (aspect : VkImageAspectFlags)
  | vhBufCreateTextureSampler
  | vkDestroySampler (sampler : Handle)
  | vkDestroyImageView (imageView : Handle)
  | vmaDestroyImage (image : Handle) (allocation : Handle)
  | operator_delete (object : VETexture)
  | addMaps (entity : Nat) (maps : List VkDescriptorImageInfo)
  | VESubrender_addEntity (entity : Nat)
deriving DecidableEq, Repr

/-- The state a function of the source runs in: the device state and the log
of the calls made so far. -/
structure Sys (σ : Type) where
  world : σ
  log : List Call

/-- A buffer handle with its allocation, the pair of out-parameters of the
buffer uploads. -/
structure BufferOut where
  buffer : Handle
  allocation : Handle
deriving DecidableEq, Repr

/-- The out-parameters of `vhBufCreateTextureImage`. -/
structure ImageOut where
  image : Handle
  allocation : Handle
  extent : VkExtent2D
deriving DecidableEq, Repr

/-- The out-parameters of `vhBufCreateTexturecubeImage`. -/
structure CubeImageOut where
  image : Handle
  allocation : Handle
  format : VkFormat
deriving DecidableEq, Repr

/-- The functions called by the two source files and defined outside of them
(`vh::` helpers, VMA, Vulkan, the base class `VESubrender`, the square root
of the C library on the exact numbers of the embedding). They are parameters
of the embedding. A helper with out-parameters receives their
current contents and returns the result code it reports together with the new
contents. -/
structure Helpers (σ : Type) where
  sqrt : ℚ → ℚ
  vhBufCreateVertexBuffer : List vhVertex → BufferOut → σ → (VkResult × BufferOut) × σ
  vhBufCreateIndexBuffer : List Nat → BufferOut → σ → (VkResult × BufferOut) × σ
  vmaDestroyBuffer : Handle → Handle → σ → σ
  vhBufCreateTextureImage :
    String → List String → VkImageCreateFlags → ImageOut → σ → (VkResult × ImageOut) × σ
  vhBufCreateTexturecubeImage : texture_cube → CubeImageOut → σ → (VkResult × CubeImageOut) × σ
  vhBufCreateImageView :
    Handle → VkFormat → VkImageViewType → Nat → VkImageAspectFlags → Handle → σ →
      (VkResult × Handle) × σ
  vhBufCreateTextureSampler : Handle → σ → (VkResult × Handle) × σ
  vkDestroySampler : Handle → σ → σ
  vkDestroyImageView : Handle → σ → σ
  vmaDestroyImage : Handle → Handle → σ → σ
  addMaps : Nat → List VkDescriptorImageInfo → σ → σ
  VESubrender_addEntity : Nat → σ → σ

/-- Append a call to the log and replace the device state. -/
def Sys.step {σ : Type} (s : Sys σ) (c : Call) (w : σ) : Sys σ :=
  { world := w, log := s.log ++ [c] }

/-! ## Mesh -/

/-- The members of `VEMesh` (the name of `VENamedClass` apart). The class
declaration is in a header that is not among the source files: the two counts
are natural numbers, without the wrap-around of a machine integer, and the
radius is an exact number. -/
structure VEMesh where
  m_vertexCount : Nat
  m_indexCount : Nat
  m_boundingSphereRadius : ℚ
  m_vertexBuffer : Handle
  m_vertexBufferAllocation : Handle
  m_indexBuffer : Handle
  m_indexBufferAllocation : Handle
deriving DecidableEq, Repr

/-- The locals `vertices` and `maxsq` of the constructor across the vertex
loop. -/
structure VertexLoopState where
  vertices : List vhVertex
  maxsq : ℚ
deriving DecidableEq, Repr

/-- The value assigned to `maxsq` for a position:
`std::max(std::max(x*x, y*y), z*z)`. -/
def axisSq (p : aiVector3D) : ℚ := max (max (p.x * p.x) (p.y * p.y)) (p.z * p.z)

/-- One iteration `i` of the vertex loop (source lines 36-60). -/
def vertexLoopBody (paiMesh : aiMesh) (s : VertexLoopState) (i : Nat) : VertexLoopState :=
  let vertex := vhVertex.fresh
  let p := aiAt paiMesh.mVertices i
  let vertex := { vertex with pos := ⟨p.x, p.y, p.z⟩ }
  let maxsq := max (max (vertex.pos.x * vertex.pos.x) (vertex.pos.y * vertex.pos.y))
    (vertex.pos.z * vertex.pos.z)
  let vertex :=
    if paiMesh.HasNormals then
      let n := aiAtOpt paiMesh.mNormals i
      { vertex with normal := ⟨n.x, n.y, n.z⟩ }
    else vertex
  let vertex :=
    if paiMesh.HasTangentsAndBitangents && paiMesh.mTangents.isSome then
      let t := aiAtOpt paiMesh.mTangents i
      { vertex with tangent := ⟨t.x, t.y, t.z⟩ }
    else vertex
  let vertex :=
    if paiMesh.HasTextureCoords0 then
      let t := aiAtOpt paiMesh.mTextureCoords0 i
      { vertex with texCoord := ⟨t.x, t.y⟩ }
    else vertex
  { vertices := s.vertices ++ [vertex], maxsq := maxsq }

/-- The vertex loop `for (i = 0; i < paiMesh->mNumVertices; i++)`, started
with `vertices` empty and `maxsq = 0`. -/
def vertexLoop (paiMesh : aiMesh) : VertexLoopState :=
  (List.range paiMesh.mNumVertices).foldl (vertexLoopBody paiMesh) ⟨[], 0⟩

/-- The local `indices` and the member `m_indexCount` across the index
loops. -/
structure IndexLoopState where
  indices : List Nat
  m_indexCount : Nat
deriving DecidableEq, Repr

/-- One iteration `j` of the inner loop: `indices.push_back(...)`,
`m_indexCount++`. -/
def indexInnerBody (face : aiFace) (s : IndexLoopState) (j : Nat) : IndexLoopState :=
  { indices := s.indices ++ [face.mIndices.getD j 0], m_indexCount := s.m_indexCount + 1 }

/-- One iteration `i` of the outer loop: the inner loop over the indices of
face `i`. -/
def indexOuterBody (paiMesh : aiMesh) (s : IndexLoopState) (i : Nat) : IndexLoopState :=
  let face := paiMesh.mFaces.getD i ⟨[]⟩
  (List.range face.mNumIndices).foldl (indexInnerBody face) s

/-- The index loops, started with `indices` empty and `m_indexCount = 0`. -/
def indexLoop (paiMesh : aiMesh) : IndexLoopState :=
  (List.range paiMesh.mNumFaces).foldl (indexOuterBody paiMesh) ⟨[], 0⟩

/-- The members of a `VEMesh` before the constructor body runs. The class
declaration is in a header that is not among the source files; the four
handles are taken to start as null handles, like those of a texture. The
constructor assigns every member. -/
def VEMesh.fresh : VEMesh := ⟨0, 0, 0, VK_NULL_HANDLE, VK_NULL_HANDLE, VK_NULL_HANDLE, VK_NULL_HANDLE⟩

/-- How a constructor call ends: it returns normally, and the caller holds the
object, or it fails and the caller holds none. -/
inductive Constructed (α : Type) where
  | completed (object : α)
  | failed
deriving DecidableEq, Repr

/-- The constructor `VEMesh::VEMesh(name, paiMesh)` (source lines 28-82), along
the executions in which both upload calls return. The two calls are expression
statements: what they return is dropped. The exit of an upload by an exception
is in `VEMesh.ctorExc`. -/
def VEMesh.ctor {σ : Type} (h : Helpers σ) (paiMesh : aiMesh) (s : Sys σ) :
    Constructed VEMesh × Sys σ :=
  let self := VEMesh.fresh
  let self := { self with m_vertexCount := paiMesh.mNumVertices }
  let vl := vertexLoop paiMesh
  let self := { self with m_boundingSphereRadius := h.sqrt vl.maxsq }
  let il := indexLoop paiMesh
  let self := { self with m_indexCount := il.m_indexCount }
  let r := h.vhBufCreateVertexBuffer vl.vertices
    ⟨self.m_vertexBuffer, self.m_vertexBufferAllocation⟩ s.world
  let s := s.step (Call.vhBufCreateVertexBuffer vl.vertices) r.2
  let self := { self with m_vertexBuffer := r.1.2.buffer,
                          m_vertexBufferAllocation := r.1.2.allocation }
  let r := h.vhBufCreateIndexBuffer il.indices
    ⟨self.m_indexBuffer, self.m_indexBufferAllocation⟩ s.world
  let s := s.step (Call.vhBufCreateIndexBuffer il.indices) r.2
  let self := { self with m_indexBuffer := r.1.2.buffer,
                          m_indexBufferAllocation := r.1.2.allocation }
  (Constructed.completed self, s)

/-- The destructor `VEMesh::~VEMesh()` (source lines 87-90). -/
def VEMesh.dtor {σ : Type} (h : Helpers σ) (self : VEMesh) (s : Sys σ) : Sys σ :=
  let s := s.step (Call.vmaDestroyBuffer self.m_indexBuffer self.m_indexBufferAllocation)
    (h.vmaDestroyBuffer self.m_indexBuffer self.m_indexBufferAllocation s.world)
  let s := s.step (Call.vmaDestroyBuffer self.m_vertexBuffer self.m_vertexBufferAllocation)
    (h.vmaDestroyBuffer self.m_vertexBuffer self.m_vertexBufferAllocation s.world)
  s

/-- Modelled from the spec: how a call of a buffer upload ends. The upload
helpers `vh::vhBufCreateVertexBuffer` and `vh::vhBufCreateIndexBuffer` are not
among the source files. By the contract of the spec an upload returns a
buffer handle with its allocation handle, with no result code, and a failing
upload fails the constructing call: it does not return, it leaves by an
exception. -/
inductive UploadOutcome where
  | returned (out : BufferOut)
  | thrown
deriving DecidableEq, Repr

/-- Modelled from the spec: the two buffer uploads as functions that either
return the contents of their out-parameters or fail. -/
structure UploadHelpers (σ : Type) where
  vhBufCreateVertexBuffer : List vhVertex → BufferOut → σ → UploadOutcome × σ
  vhBufCreateIndexBuffer : List Nat → BufferOut → σ → UploadOutcome × σ

/-- The constructor `VEMesh::VEMesh(name, paiMesh)` (source lines 28-82) with
uploads that may fail. The body has no `try` block and no test around the two
calls: an exception of an upload leaves the constructor at that call, the
statements after it do not run, and no object comes to exist. -/
def VEMesh.ctorExc {σ : Type} (sqrt : ℚ → ℚ) (u : UploadHelpers σ) (paiMesh : aiMesh)
    (s : Sys σ) : Constructed VEMesh × Sys σ :=
  let self := VEMesh.fresh
  let self := { self with m_vertexCount := paiMesh.mNumVertices }
  let vl := vertexLoop paiMesh
  let self := { self with m_boundingSphereRadius := sqrt vl.maxsq }
  let il := indexLoop paiMesh
  let self := { self with m_indexCount := il.m_indexCount }
  let r := u.vhBufCreateVertexBuffer vl.vertices
    ⟨self.m_vertexBuffer, self.m_vertexBufferAllocation⟩ s.world
  let s := s.step (Call.vhBufCreateVertexBuffer vl.vertices) r.2
  match r.1 with
  | UploadOutcome.thrown => (Constructed.failed, s)
  | UploadOutcome.returned out =>
    let self := { self with m_vertexBuffer := out.buffer,
                            m_vertexBufferAllocation := out.allocation }
    let r := u.vhBufCreateIndexBuffer il.indices
      ⟨self.m_indexBuffer, self.m_indexBufferAllocation⟩ s.world
    let s := s.step (Call.vhBufCreateIndexBuffer il.indices) r.2
    match r.1 with
    | UploadOutcome.thrown => (Constructed.failed, s)
    | UploadOutcome.returned out =>
      let self := { self with m_indexBuffer := out.buffer,
                              m_indexBufferAllocation := out.allocation }
      (Constructed.completed self, s)

/-- The uploads of `h` seen as uploads that always return. -/
def Helpers.uploads {σ : Type} (h : Helpers σ) : UploadHelpers σ :=
  { vhBufCreateVertexBuffer := fun vertices out w =>
      (UploadOutcome.returned (h.vhBufCreateVertexBuffer vertices out w).1.2,
        (h.vhBufCreateVertexBuffer vertices out w).2)
    vhBufCreateIndexBuffer := fun indices out w =>
      (UploadOutcome.returned (h.vhBufCreateIndexBuffer indices out w).1.2,
        (h.vhBufCreateIndexBuffer indices out w).2) }

/-! ## Texture -/

/-- Modelled from the spec: the default member initialisers of `VETexture`,
which stand in the class declaration, in a header that is not among the
source files. The spec's data model says that a null handle means the resource
was never created and that a texture built from no file has all its handles
null; the other members start as zero. -/
def VETexture.fresh (name : String) : VETexture :=
  { m_name := name, m_image := VK_NULL_HANDLE, m_deviceAllocation := VK_NULL_HANDLE,
    m_imageView := VK_NULL_HANDLE, m_sampler := VK_NULL_HANDLE, m_format := 0,
    m_extent := ⟨0, 0⟩, m_imageInfo := ⟨VK_NULL_HANDLE, VK_NULL_HANDLE, VK_IMAGE_LAYOUT_UNDEFINED⟩ }

/-- The body of `VETexture::VETexture(name, basedir, texNames, flags, viewType)`
(source lines 124-137), run on the object `self` as the member initialisers
left it. -/
def VETexture.ctorBody {σ : Type} (h : Helpers σ) (self : VETexture) (basedir : String)
    (texNames : List String) (flags : VkImageCreateFlags) (viewType : VkImageViewType)
    (s : Sys σ) : Constructed VETexture × Sys σ :=
  if texNames.length = 0 then (Constructed.completed self, s)
  else
    let r := h.vhBufCreateTextureImage basedir texNames flags
      ⟨self.m_image, self.m_deviceAllocation, self.m_extent⟩ s.world
    let s := s.step (Call.vhBufCreateTextureImage basedir texNames flags) r.2
    let self := { self with m_image := r.1.2.image, m_deviceAllocation := r.1.2.allocation,
                            m_extent := r.1.2.extent }
    let self := { self with m_format := VK_FORMAT_R8G8B8A8_UNORM }
    let r := h.vhBufCreateImageView self.m_image self.m_format viewType
      (toUInt32 texNames.length) VK_IMAGE_ASPECT_COLOR_BIT self.m_imageView s.world
    let s := s.step (Call.vhBufCreateImageView self.m_image self.m_format viewType
      (toUInt32 texNames.length) VK_IMAGE_ASPECT_COLOR_BIT) r.2
    let self := { self with m_imageView := r.1.2 }
    let r := h.vhBufCreateTextureSampler self.m_sampler s.world
    let s := s.step Call.vhBufCreateTextureSampler r.2
    let self := { self with m_sampler := r.1.2 }
    (Constructed.completed self, s)

/-- The constructor from a list of files. -/
def VETexture.ctor {σ : Type} (h : Helpers σ) (name : String) (basedir : String)
    (texNames : List String) (flags : VkImageCreateFlags) (viewType : VkImageViewType)
    (s : Sys σ) : Constructed VETexture × Sys σ :=
  VETexture.ctorBody h (VETexture.fresh name) basedir texNames flags viewType s

/-- The body of `VETexture::VETexture(name, texCube, flags, viewType)` (source
lines 151-166), run on the object `self` as the member initialisers left it.
Neither `flags` nor `viewType` is read. -/
def VETexture.ctorCubeBody {σ : Type} (h : Helpers σ) (self : VETexture)
    (texCube : texture_cube) (_flags : VkImageCreateFlags) (_viewType : VkImageViewType)
    (s : Sys σ) : Constructed VETexture × Sys σ :=
  let r := h.vhBufCreateTexturecubeImage texCube
    ⟨self.m_image, self.m_deviceAllocation, self.m_format⟩ s.world
  let s := s.step (Call.vhBufCreateTexturecubeImage texCube) r.2
  let self := { self with m_image := r.1.2.image, m_deviceAllocation := r.1.2.allocation,
                          m_format := r.1.2.format }
  let self := { self with m_extent := { self.m_extent with width := texCube.extent_x } }
  let self := { self with m_extent := { self.m_extent with height := texCube.extent_y } }
  let r := h.vhBufCreateImageView self.m_image self.m_format VK_IMAGE_VIEW_TYPE_CUBE 6
    VK_IMAGE_ASPECT_COLOR_BIT self.m_imageView s.world
  let s := s.step (Call.vhBufCreateImageView self.m_image self.m_format
    VK_IMAGE_VIEW_TYPE_CUBE 6 VK_IMAGE_ASPECT_COLOR_BIT) r.2
  let self := { self with m_imageView := r.1.2 }
  let r := h.vhBufCreateTextureSampler self.m_sampler s.world
  let s := s.step Call.vhBufCreateTextureSampler r.2
  let self := { self with m_sampler := r.1.2 }
  (Constructed.completed self, s)

/-- The constructor from a decoded cube map. -/
def VETexture.ctorCube {σ : Type} (h : Helpers σ) (name : String) (texCube : texture_cube)
    (flags : VkImageCreateFlags) (viewType : VkImageViewType) (s : Sys σ) :
    Constructed VETexture × Sys σ :=
  VETexture.ctorCubeBody h (VETexture.fresh name) texCube flags viewType s

/-- The destructor `VETexture::~VETexture()` (source lines 171-175). -/
def VETexture.dtor {σ : Type} (h : Helpers σ) (self : VETexture) (s : Sys σ) : Sys σ :=
  let s :=
    if self.m_sampler ≠ VK_NULL_HANDLE then
      s.step (Call.vkDestroySampler self.m_sampler) (h.vkDestroySampler self.m_sampler s.world)
    else s
  let s :=
    if self.m_imageView ≠ VK_NULL_HANDLE then
      s.step (Call.vkDestroyImageView self.m_imageView)
        (h.vkDestroyImageView self.m_imageView s.world)
    else s
  let s :=
    if self.m_image ≠ VK_NULL_HANDLE then
      s.step (Call.vmaDestroyImage self.m_image self.m_deviceAllocation)
        (h.vmaDestroyImage self.m_image self.m_deviceAllocation s.world)
    else s
  s

/-- The releases the destructor of `self` is due: one entry per non-null
handle among sampler, image view and image, in this order. -/
def VETexture.dueReleases (self : VETexture) : List Call :=
  (if self.m_sampler ≠ VK_NULL_HANDLE then [Call.vkDestroySampler self.m_sampler] else []) ++
  (if self.m_imageView ≠ VK_NULL_HANDLE then [Call.vkDestroyImageView self.m_imageView] else []) ++
  (if self.m_image ≠ VK_NULL_HANDLE then
    [Call.vmaDestroyImage self.m_image self.m_deviceAllocation] else [])

/-! ## Material -/

/-- The four texture slots of `VEMaterial`; a null pointer is `none`, a
non-null pointer is the texture it points to. -/
structure VEMaterial where
  mapDiffuse : Option VETexture
  mapBump : Option VETexture
  mapNormal : Option VETexture
  mapHeight : Option VETexture
deriving DecidableEq, Repr

/-- The expression `delete p` for a texture pointer: nothing for a null
pointer, otherwise the destructor of the texture and then the release of its
storage. -/
def delete_VETexture {σ : Type} (h : Helpers σ) (p : Option VETexture) (s : Sys σ) : Sys σ :=
  match p with
  | none => s
  | some t =>
    let s := VETexture.dtor h t s
    s.step (Call.operator_delete t) s.world

/-- The destructor `VEMaterial::~VEMaterial()` (source lines 99-104). -/
def VEMaterial.dtor {σ : Type} (h : Helpers σ) (self : VEMaterial) (s : Sys σ) : Sys σ :=
  let s := if self.mapDiffuse ≠ none then delete_VETexture h self.mapDiffuse s else s
  let s := if self.mapBump ≠ none then delete_VETexture h self.mapBump s else s
  let s := if self.mapNormal ≠ none then delete_VETexture h self.mapNormal s else s
  let s := if self.mapHeight ≠ none then delete_VETexture h self.mapHeight s else s
  s

/-- The textures of the present slots, in the order diffuse, bump, normal,
height. -/
def VEMaterial.presentTextures (self : VEMaterial) : List VETexture :=
  [self.mapDiffuse, self.mapBump, self.mapNormal, self.mapHeight].reduceOption

/-- The storage releases in a log, in order: the textures a run released. -/
def releasedTextures (log : List Call) : List VETexture :=
  log.filterMap fun c =>
    match c with
    | Call.operator_delete t => some t
    | _ => none

/-! ## Sky plane subrenderer -/

/-- An entity, as far as `addEntity` reads it: its address, which is what the
subrenderer hands on, and the material pointer. -/
structure VEEntity where
  address : Nat
  m_pMaterial : Option VEMaterial
deriving DecidableEq, Repr

/-- The function `VESubrenderFW_Skyplane::addEntity(pEntity)` (source lines
55-67). The result is `none` when the body dereferences a null pointer. The
local `imageInfo1` is zero-initialised and not read afterwards. -/
def VESubrenderFW_Skyplane.addEntity {σ : Type} (h : Helpers σ) (pEntity : VEEntity)
    (s : Sys σ) : Option (Sys σ) :=
  let _imageInfo1 : VkDescriptorImageInfo := ⟨0, 0, 0⟩
  match pEntity.m_pMaterial with
  | none => none
  | some material =>
    match material.mapDiffuse with
    | none => none
    | some mapDiffuse =>
      let maps := [mapDiffuse.m_imageInfo]
      let s := s.step (Call.addMaps pEntity.address maps)
        (h.addMaps pEntity.address maps s.world)
      let s := s.step (Call.VESubrender_addEntity pEntity.address)
        (h.VESubrender_addEntity pEntity.address s.world)
      some s

/-- The descriptor the spec describes for a texture: its image view, its
sampler and the shader-read-only layout. -/
def describedImageInfo (t : VETexture) : VkDescriptorImageInfo :=
  { sampler := t.m_sampler, imageView := t.m_imageView,
    imageLayout := VK_IMAGE_LAYOUT_SHADER_READ_ONLY_OPTIMAL }


/-! ## Concrete inputs -/

/-- A square root on the rationals that is exact on the squares of
rationals: the integer square roots of numerator and denominator. -/
def sqrtExact (q : ℚ) : ℚ := (Nat.sqrt q.num.toNat : ℚ) / (Nat.sqrt q.den : ℚ)

/-- Helpers on a trivial device state: every upload succeeds and returns
fixed non-null handles. -/
def okHelpers : Helpers Unit :=
  { sqrt := sqrtExact
    vhBufCreateVertexBuffer := fun _ _ w => ((VK_SUCCESS, ⟨21, 22⟩), w)
    vhBufCreateIndexBuffer := fun _ _ w => ((VK_SUCCESS, ⟨23, 24⟩), w)
    vmaDestroyBuffer := fun _ _ w => w
    vhBufCreateTextureImage := fun _ _ _ _ w => ((VK_SUCCESS, ⟨11, 12, ⟨64, 64⟩⟩), w)
    vhBufCreateTexturecubeImage := fun _ _ w => ((VK_SUCCESS, ⟨13, 14, 43⟩), w)
    vhBufCreateImageView := fun _ _ _ _ _ _ w => ((VK_SUCCESS, 7), w)
    vhBufCreateTextureSampler := fun _ w => ((VK_SUCCESS, 9), w)
    vkDestroySampler := fun _ w => w
    vkDestroyImageView := fun _ w => w
    vmaDestroyImage := fun _ _ w => w
    addMaps := fun _ _ w => w
    VESubrender_addEntity := fun _ w => w }

/-- Uploads on the trivial device state whose vertex-buffer upload returns
the handles `21`, `22` and whose index-buffer upload fails. -/
def indexFailingUploads : UploadHelpers Unit :=
  { vhBufCreateVertexBuffer := fun _ _ w => (UploadOutcome.returned ⟨21, 22⟩, w)
    vhBufCreateIndexBuffer := fun _ _ w => (UploadOutcome.thrown, w) }

/-- The start state on the trivial device: nothing logged. -/
def start : Sys Unit := ⟨(), []⟩

/-- Four vertices of a unit square and the two triangles `[0,1,2]`,
`[0,2,3]`. -/
def squareMesh : aiMesh :=
  { mVertices := [⟨0, 0, 0⟩, ⟨1, 0, 0⟩, ⟨1, 1, 0⟩, ⟨0, 1, 0⟩]
    mNormals := none, mTangents := none, mBitangents := none, mTextureCoords0 := none
    mFaces := [⟨[0, 1, 2]⟩, ⟨[0, 2, 3]⟩] }

/-- Two vertices, the one farther from the origin first. -/
def farFirstMesh : aiMesh :=
  { mVertices := [⟨2, 0, 0⟩, ⟨1, 0, 0⟩]
    mNormals := none, mTangents := none, mBitangents := none, mTextureCoords0 := none
    mFaces := [] }

/-- The value the spec gives for `maxsq`: the maximum over all vertices of
the per-vertex value, `0` for no vertex. -/
def maxsqOverAll (vs : List aiVector3D) : ℚ :=
  vs.foldl (fun acc v => max acc (axisSq v)) 0


/-- A list of `2 ^ 32` file names. -/
def manyNames : List String := List.replicate (2 ^ 32) "layer.png"

/-- The texture the file-list constructor builds from one file with
`okHelpers`. -/
def skyTexture : VETexture :=
  { m_name := "sky", m_image := 11, m_deviceAllocation := 12, m_imageView := 7, m_sampler := 9,
    m_format := VK_FORMAT_R8G8B8A8_UNORM, m_extent := ⟨64, 64⟩,
    m_imageInfo := ⟨VK_NULL_HANDLE, VK_NULL_HANDLE, VK_IMAGE_LAYOUT_UNDEFINED⟩ }

/-- An entity whose material has `skyTexture` in the diffuse slot and nothing
else. -/
def skyEntity : VEEntity :=
  { address := 1, m_pMaterial := some ⟨some skyTexture, none, none, none⟩ }

/-- A decoded cube map of 512 by 256 pixels per face. -/
def skyCube : texture_cube := ⟨512, 256, []⟩

/-! ## Lists read through an index loop -/

theorem range_map_getD {α : Type} (l : List α) (d : α) :
    (List.range l.length).map (fun j => l.getD j d) = l := by
  apply List.ext_getElem
  · simp
  · intro n h1 h2
    simp [List.getD_eq_getElem, h2]

theorem foldl_range_getD {α β : Type} (g : β → α → β) (l : List α) (d : α) (b : β) :
    (List.range l.length).foldl (fun acc j => g acc (l.getD j d)) b = l.foldl g b := by
  rw [← List.foldl_map (fun j => l.getD j d) g, range_map_getD]

/-! ## The index loops -/

theorem indexInner_foldl (l : List Nat) (s : IndexLoopState) :
    l.foldl (fun (acc : IndexLoopState) a =>
        ({ indices := acc.indices ++ [a], m_indexCount := acc.m_indexCount + 1 } :
          IndexLoopState)) s
      = ⟨s.indices ++ l, s.m_indexCount + l.length⟩ := by
  induction l generalizing s with
  | nil => simp
  | cons a l ih => simp [ih, Nat.add_comm, Nat.add_left_comm]

theorem indexInner_loop (face : aiFace) (s : IndexLoopState) :
    (List.range face.mNumIndices).foldl (indexInnerBody face) s
      = ⟨s.indices ++ face.mIndices, s.m_indexCount + face.mIndices.length⟩ := by
  have h := foldl_range_getD
    (fun (acc : IndexLoopState) a =>
      ({ indices := acc.indices ++ [a], m_indexCount := acc.m_indexCount + 1 } :
        IndexLoopState)) face.mIndices 0 s
  rw [indexInner_foldl] at h
  exact h

theorem indexOuter_foldl (fs : List aiFace) (s : IndexLoopState) :
    fs.foldl (fun (acc : IndexLoopState) f =>
        (List.range f.mNumIndices).foldl (indexInnerBody f) acc) s
      = ⟨s.indices ++ (fs.map aiFace.mIndices).flatten,
          s.m_indexCount + (fs.map fun f => f.mIndices.length).sum⟩ := by
  induction fs generalizing s with
  | nil => simp
  | cons f fs ih =>
    rw [List.foldl_cons, ih, indexInner_loop]
    simp only [List.map_cons, List.flatten_cons, List.sum_cons, List.append_assoc,
      Nat.add_assoc]

theorem indexLoop_eq (paiMesh : aiMesh) :
    indexLoop paiMesh
      = ⟨(paiMesh.mFaces.map aiFace.mIndices).flatten,
          (paiMesh.mFaces.map fun f => f.mIndices.length).sum⟩ := by
  have h := foldl_range_getD
    (fun (acc : IndexLoopState) f =>
      (List.range f.mNumIndices).foldl (indexInnerBody f) acc) paiMesh.mFaces ⟨[]⟩ ⟨[], 0⟩
  rw [indexOuter_foldl] at h
  simp only [List.nil_append, Nat.zero_add] at h
  exact h

/-! ## The vertex loop -/

theorem vertexLoop_foldl_length (paiMesh : aiMesh) (is : List Nat) (s : VertexLoopState) :
    (is.foldl (vertexLoopBody paiMesh) s).vertices.length = s.vertices.length + is.length := by
  induction is generalizing s with
  | nil => simp
  | cons i is ih =>
    simp only [List.foldl_cons, ih, List.length_cons]
    simp only [vertexLoopBody, List.length_append, List.length_singleton]
    omega

theorem vertexLoop_length (paiMesh : aiMesh) :
    (vertexLoop paiMesh).vertices.length = paiMesh.mVertices.length := by
  simp [vertexLoop, vertexLoop_foldl_length, aiMesh.mNumVertices]

/-- After at least one iteration `maxsq` holds the value of the vertex of
the last iteration alone. -/
theorem vertexLoop_maxsq_last (paiMesh : aiMesh) (n : Nat) (s : VertexLoopState) :
    ((List.range (n + 1)).foldl (vertexLoopBody paiMesh) s).maxsq
      = axisSq (aiAt paiMesh.mVertices n) := by
  rw [List.range_succ, List.foldl_append]
  simp [vertexLoopBody, axisSq]


theorem vertexLoop_maxsq_eq (paiMesh : aiMesh) :
    (vertexLoop paiMesh).maxsq
      = match paiMesh.mVertices.getLast? with
        | some v => axisSq v
        | none => 0 := by
  unfold vertexLoop aiMesh.mNumVertices
  rcases List.eq_nil_or_concat paiMesh.mVertices with hnil | ⟨l, v, hl⟩
  · simp [hnil]
  · rw [List.concat_eq_append] at hl
    rw [hl, List.length_append, List.length_singleton, vertexLoop_maxsq_last]
    simp [aiAt, hl]

/-! ## Mesh: the claims -/

/-- C1: for every source mesh the constructor completes with `m_vertexCount`
the number of source vertices and `m_indexCount` the sum of the index counts of
the faces, and these are the lengths of the vertex array and of the index
array handed to the vertex-buffer and to the index-buffer upload. -/
theorem VEMesh_ctor_counts {σ : Type} (h : Helpers σ) (paiMesh : aiMesh) (s : Sys σ) :
    ∃ mesh vertices indices,
      (VEMesh.ctor h paiMesh s).1 = Constructed.completed mesh ∧
      (VEMesh.ctor h paiMesh s).2.log
        = s.log ++ [Call.vhBufCreateVertexBuffer vertices,
                    Call.vhBufCreateIndexBuffer indices] ∧
      mesh.m_vertexCount = paiMesh.mNumVertices ∧
      mesh.m_indexCount = (paiMesh.mFaces.map aiFace.mNumIndices).sum ∧
      vertices.length = mesh.m_vertexCount ∧
      indices.length = mesh.m_indexCount := by
  refine ⟨_, (vertexLoop paiMesh).vertices, (indexLoop paiMesh).indices, rfl, ?_, rfl, ?_, ?_, ?_⟩
  · simp [VEMesh.ctor, Sys.step]
  · simp only [indexLoop_eq]
    rfl
  · exact vertexLoop_length paiMesh
  · simp only [indexLoop_eq, List.length_flatten, List.map_map]
    rfl

/-- C2, the code at the two vertices `(2,0,0)`, `(1,0,0)`: the loop leaves
`maxsq = 1`, the value of the last vertex alone, and the radius is `1`, while
the first vertex has the per-vertex value `4`, the maximum over all vertices is
`4` and its square root is `2`. -/
theorem VEMesh_ctor_maxsq_farFirst :
    (vertexLoop farFirstMesh).maxsq = 1 ∧
    axisSq ⟨2, 0, 0⟩ = 4 ∧
    (vertexLoop farFirstMesh).maxsq < axisSq ⟨2, 0, 0⟩ ∧
    maxsqOverAll farFirstMesh.mVertices = 4 ∧
    okHelpers.sqrt 4 = 2 ∧
    (VEMesh.ctor okHelpers farFirstMesh start).1
      = Constructed.completed ⟨2, 0, 1, 21, 22, 23, 24⟩ := by
  have h1 : (vertexLoop farFirstMesh).maxsq = 1 := by
    rw [vertexLoop_maxsq_eq]
    norm_num [farFirstMesh, axisSq]
  have h4 : okHelpers.sqrt 4 = 2 := by
    have hn : ((4 : ℚ)).num = 4 := rfl
    have hd : ((4 : ℚ)).den = 1 := rfl
    have hs : Nat.sqrt 4 = 2 := by norm_num [Nat.sqrt]
    simp [okHelpers, sqrtExact, hn, hd, hs]
  have hr : okHelpers.sqrt 1 = 1 := by simp [okHelpers, sqrtExact]
  refine ⟨h1, by norm_num [axisSq], by rw [h1]; norm_num [axisSq],
    by norm_num [maxsqOverAll, farFirstMesh, axisSq], h4, ?_⟩
  simp only [VEMesh.ctor, h1, hr, indexLoop_eq]
  rfl

/-- C3: for every list of faces the index array handed to the index-buffer
upload is the concatenation of the index lists of the faces, in face order;
the two triangles `[0,1,2]`, `[0,2,3]` over four vertices give
`[0,1,2,0,2,3]`, vertex count `4` and index count `6`. -/
theorem VEMesh_ctor_indices_flatten {σ : Type} (h : Helpers σ) (paiMesh : aiMesh)
    (s : Sys σ) :
    (indexLoop paiMesh).indices = (paiMesh.mFaces.map aiFace.mIndices).flatten ∧
    (∃ vertices, (VEMesh.ctor h paiMesh s).2.log
        = s.log ++ [Call.vhBufCreateVertexBuffer vertices,
            Call.vhBufCreateIndexBuffer (paiMesh.mFaces.map aiFace.mIndices).flatten]) ∧
    (∃ vertices mesh,
      (VEMesh.ctor h squareMesh s).2.log
        = s.log ++ [Call.vhBufCreateVertexBuffer vertices,
            Call.vhBufCreateIndexBuffer [0, 1, 2, 0, 2, 3]] ∧
      (VEMesh.ctor h squareMesh s).1 = Constructed.completed mesh ∧
      mesh.m_vertexCount = 4 ∧ mesh.m_indexCount = 6) := by
  refine ⟨by rw [indexLoop_eq], ⟨(vertexLoop paiMesh).vertices, ?_⟩,
    ⟨(vertexLoop squareMesh).vertices, _, ?_, rfl, rfl, ?_⟩⟩
  · simp [VEMesh.ctor, Sys.step, indexLoop_eq]
  · simp [VEMesh.ctor, Sys.step, indexLoop_eq, squareMesh]
  · simp [indexLoop_eq, squareMesh]

/-- C8: for every mesh the destructor makes exactly two buffer releases: the
index buffer with the index-buffer allocation, then the vertex buffer with the
vertex-buffer allocation; the second is made in whatever state the first one
left the device. -/
theorem VEMesh_dtor_releases {σ : Type} (h : Helpers σ) (self : VEMesh) (s : Sys σ) :
    (VEMesh.dtor h self s).log
      = s.log ++ [Call.vmaDestroyBuffer self.m_indexBuffer self.m_indexBufferAllocation,
                  Call.vmaDestroyBuffer self.m_vertexBuffer self.m_vertexBufferAllocation] ∧
    (VEMesh.dtor h self s).world
      = h.vmaDestroyBuffer self.m_vertexBuffer self.m_vertexBufferAllocation
          (h.vmaDestroyBuffer self.m_indexBuffer self.m_indexBufferAllocation s.world) := by
  simp [VEMesh.dtor, Sys.step]

/-- With uploads that always return, the constructor with failing uploads is
the constructor `VEMesh.ctor`. -/
theorem VEMesh_ctorExc_of_returning {σ : Type} (h : Helpers σ) (paiMesh : aiMesh)
    (s : Sys σ) :
    VEMesh.ctorExc h.sqrt h.uploads paiMesh s = VEMesh.ctor h paiMesh s := rfl

/-- When both uploads return, the constructor completes, and the mesh holds
the handles the two uploads wrote. -/
theorem VEMesh_ctorExc_completed {σ : Type} (sqrt : ℚ → ℚ) (u : UploadHelpers σ)
    (paiMesh : aiMesh) (s : Sys σ) (vout iout : BufferOut)
    (hv : (u.vhBufCreateVertexBuffer (vertexLoop paiMesh).vertices
        ⟨VK_NULL_HANDLE, VK_NULL_HANDLE⟩ s.world).1 = UploadOutcome.returned vout)
    (hi : (u.vhBufCreateIndexBuffer (indexLoop paiMesh).indices
        ⟨VK_NULL_HANDLE, VK_NULL_HANDLE⟩
        (u.vhBufCreateVertexBuffer (vertexLoop paiMesh).vertices
          ⟨VK_NULL_HANDLE, VK_NULL_HANDLE⟩ s.world).2).1 = UploadOutcome.returned iout) :
    (VEMesh.ctorExc sqrt u paiMesh s).1
      = Constructed.completed
          { m_vertexCount := paiMesh.mNumVertices
            m_indexCount := (indexLoop paiMesh).m_indexCount
            m_boundingSphereRadius := sqrt (vertexLoop paiMesh).maxsq
            m_vertexBuffer := vout.buffer
            m_vertexBufferAllocation := vout.allocation
            m_indexBuffer := iout.buffer
            m_indexBufferAllocation := iout.allocation } := by
  have hv' : (u.vhBufCreateVertexBuffer (vertexLoop paiMesh).vertices
      ⟨VEMesh.fresh.m_vertexBuffer, VEMesh.fresh.m_vertexBufferAllocation⟩ s.world).1
      = UploadOutcome.returned vout := hv
  have hi' : (u.vhBufCreateIndexBuffer (indexLoop paiMesh).indices
      ⟨VEMesh.fresh.m_indexBuffer, VEMesh.fresh.m_indexBufferAllocation⟩
      (u.vhBufCreateVertexBuffer (vertexLoop paiMesh).vertices
        ⟨VEMesh.fresh.m_vertexBuffer, VEMesh.fresh.m_vertexBufferAllocation⟩ s.world).2).1
      = UploadOutcome.returned iout := hi
  simp only [VEMesh.ctorExc, Sys.step, hv', hi']

/-- The constructor completes only when both uploads returned. -/
theorem VEMesh_ctorExc_completed_only_if {σ : Type} (sqrt : ℚ → ℚ) (u : UploadHelpers σ)
    (paiMesh : aiMesh) (s : Sys σ) (mesh : VEMesh)
    (hc : (VEMesh.ctorExc sqrt u paiMesh s).1 = Constructed.completed mesh) :
    ∃ vout iout,
      (u.vhBufCreateVertexBuffer (vertexLoop paiMesh).vertices
        ⟨VK_NULL_HANDLE, VK_NULL_HANDLE⟩ s.world).1 = UploadOutcome.returned vout ∧
      (u.vhBufCreateIndexBuffer (indexLoop paiMesh).indices
        ⟨VK_NULL_HANDLE, VK_NULL_HANDLE⟩
        (u.vhBufCreateVertexBuffer (vertexLoop paiMesh).vertices
          ⟨VK_NULL_HANDLE, VK_NULL_HANDLE⟩ s.world).2).1 = UploadOutcome.returned iout ∧
      mesh.m_vertexBuffer = vout.buffer ∧ mesh.m_vertexBufferAllocation = vout.allocation ∧
      mesh.m_indexBuffer = iout.buffer ∧ mesh.m_indexBufferAllocation = iout.allocation := by
  cases hv : (u.vhBufCreateVertexBuffer (vertexLoop paiMesh).vertices
      ⟨VK_NULL_HANDLE, VK_NULL_HANDLE⟩ s.world).1 with
  | thrown =>
    have hv' : (u.vhBufCreateVertexBuffer (vertexLoop paiMesh).vertices
        ⟨VEMesh.fresh.m_vertexBuffer, VEMesh.fresh.m_vertexBufferAllocation⟩ s.world).1
        = UploadOutcome.thrown := hv
    simp [VEMesh.ctorExc, hv'] at hc
  | returned vout =>
    cases hi : (u.vhBufCreateIndexBuffer (indexLoop paiMesh).indices
        ⟨VK_NULL_HANDLE, VK_NULL_HANDLE⟩
        (u.vhBufCreateVertexBuffer (vertexLoop paiMesh).vertices
          ⟨VK_NULL_HANDLE, VK_NULL_HANDLE⟩ s.world).2).1 with
    | thrown =>
      have hv' : (u.vhBufCreateVertexBuffer (vertexLoop paiMesh).vertices
          ⟨VEMesh.fresh.m_vertexBuffer, VEMesh.fresh.m_vertexBufferAllocation⟩ s.world).1
          = UploadOutcome.returned vout := hv
      have hi' : (u.vhBufCreateIndexBuffer (indexLoop paiMesh).indices
          ⟨VEMesh.fresh.m_indexBuffer, VEMesh.fresh.m_indexBufferAllocation⟩
          (u.vhBufCreateVertexBuffer (vertexLoop paiMesh).vertices
            ⟨VEMesh.fresh.m_vertexBuffer, VEMesh.fresh.m_vertexBufferAllocation⟩
            s.world).2).1 = UploadOutcome.thrown := hi
      simp [VEMesh.ctorExc, Sys.step, hv', hi'] at hc
    | returned iout =>
      have h := VEMesh_ctorExc_completed sqrt u paiMesh s vout iout hv hi
      rw [h] at hc
      cases hc
      exact ⟨vout, iout, rfl, rfl, rfl, rfl, rfl, rfl⟩

/-- C10: if the vertex-buffer upload fails, or the index-buffer upload fails
in the state the vertex-buffer upload left, the construction of the mesh fails:
the caller obtains no mesh object, with none or only one of the buffers or
otherwise. -/
theorem VEMesh_ctor_fails_on_failed_upload {σ : Type} (sqrt : ℚ → ℚ)
    (u : UploadHelpers σ) (paiMesh : aiMesh) (s : Sys σ)
    (hfail :
      (u.vhBufCreateVertexBuffer (vertexLoop paiMesh).vertices
        ⟨VK_NULL_HANDLE, VK_NULL_HANDLE⟩ s.world).1 = UploadOutcome.thrown ∨
      (u.vhBufCreateIndexBuffer (indexLoop paiMesh).indices
        ⟨VK_NULL_HANDLE, VK_NULL_HANDLE⟩
        (u.vhBufCreateVertexBuffer (vertexLoop paiMesh).vertices
          ⟨VK_NULL_HANDLE, VK_NULL_HANDLE⟩ s.world).2).1 = UploadOutcome.thrown) :
    (VEMesh.ctorExc sqrt u paiMesh s).1 = Constructed.failed ∧
    ∀ mesh : VEMesh, (VEMesh.ctorExc sqrt u paiMesh s).1 ≠ Constructed.completed mesh := by
  have hmain : (VEMesh.ctorExc sqrt u paiMesh s).1 = Constructed.failed := by
    cases hc : (VEMesh.ctorExc sqrt u paiMesh s).1 with
    | failed => rfl
    | completed mesh =>
      obtain ⟨vout, iout, hv, hi, _⟩ :=
        VEMesh_ctorExc_completed_only_if sqrt u paiMesh s mesh hc
      rcases hfail with hf | hf
      · rw [hv] at hf
        cases hf
      · rw [hi] at hf
        cases hf
  refine ⟨hmain, fun mesh hc => ?_⟩
  rw [hmain] at hc
  cases hc

/-- C10 at the square mesh with a vertex-buffer upload that returns and an
index-buffer upload that fails: no mesh object. -/
theorem VEMesh_ctor_fails_on_failed_upload_witness :
    ((indexFailingUploads.vhBufCreateVertexBuffer (vertexLoop squareMesh).vertices
        ⟨VK_NULL_HANDLE, VK_NULL_HANDLE⟩ start.world).1 = UploadOutcome.thrown ∨
      (indexFailingUploads.vhBufCreateIndexBuffer (indexLoop squareMesh).indices
        ⟨VK_NULL_HANDLE, VK_NULL_HANDLE⟩
        (indexFailingUploads.vhBufCreateVertexBuffer (vertexLoop squareMesh).vertices
          ⟨VK_NULL_HANDLE, VK_NULL_HANDLE⟩ start.world).2).1 = UploadOutcome.thrown) ∧
    ((VEMesh.ctorExc sqrtExact indexFailingUploads squareMesh start).1 = Constructed.failed ∧
      ∀ mesh : VEMesh,
        (VEMesh.ctorExc sqrtExact indexFailingUploads squareMesh start).1
          ≠ Constructed.completed mesh) :=
  ⟨Or.inr rfl,
    VEMesh_ctor_fails_on_failed_upload sqrtExact indexFailingUploads squareMesh start
      (Or.inr rfl)⟩

/-! ## Texture: destructor and constructors -/

theorem VETexture_dtor_log {σ : Type} (h : Helpers σ) (self : VETexture) (s : Sys σ) :
    (VETexture.dtor h self s).log = s.log ++ self.dueReleases := by
  unfold VETexture.dtor VETexture.dueReleases
  by_cases h1 : self.m_sampler = VK_NULL_HANDLE <;>
  by_cases h2 : self.m_imageView = VK_NULL_HANDLE <;>
  by_cases h3 : self.m_image = VK_NULL_HANDLE <;>
  simp [h1, h2, h3, Sys.step]

theorem VETexture_dtor_world_of_null {σ : Type} (h : Helpers σ) (self : VETexture)
    (s : Sys σ) (h1 : self.m_sampler = VK_NULL_HANDLE) (h2 : self.m_imageView = VK_NULL_HANDLE)
    (h3 : self.m_image = VK_NULL_HANDLE) : VETexture.dtor h self s = s := by
  simp [VETexture.dtor, h1, h2, h3]

/-- The body of the file-list constructor never writes `m_imageInfo`. -/
theorem VETexture_ctorBody_imageInfo {σ : Type} (h : Helpers σ) (self : VETexture)
    (basedir : String) (texNames : List String) (flags : VkImageCreateFlags)
    (viewType : VkImageViewType) (s : Sys σ) :
    ∃ t, (VETexture.ctorBody h self basedir texNames flags viewType s).1
        = Constructed.completed t ∧ t.m_imageInfo = self.m_imageInfo := by
  unfold VETexture.ctorBody
  by_cases h0 : texNames.length = 0
  · rw [if_pos h0]
    exact ⟨self, rfl, rfl⟩
  · rw [if_neg h0]
    exact ⟨_, rfl, rfl⟩

/-- The body of the cube-map constructor never writes `m_imageInfo`. -/
theorem VETexture_ctorCubeBody_imageInfo {σ : Type} (h : Helpers σ) (self : VETexture)
    (texCube : texture_cube) (flags : VkImageCreateFlags) (viewType : VkImageViewType)
    (s : Sys σ) :
    ∃ t, (VETexture.ctorCubeBody h self texCube flags viewType s).1
        = Constructed.completed t ∧ t.m_imageInfo = self.m_imageInfo :=
  ⟨_, rfl, rfl⟩

theorem manyNames_length : manyNames.length = 2 ^ 32 := by
  unfold manyNames
  rw [List.length_replicate]

/-- C4: for every texture state the destructor issues, after what was logged
before, exactly the releases of the non-null handles among sampler, image view
and image, in this order, each once; each of the three is issued if and only
if its own handle is non-null, and the image goes with its device
allocation. -/
theorem VETexture_dtor_releases {σ : Type} (h : Helpers σ) (self : VETexture) (s : Sys σ) :
    (VETexture.dtor h self s).log = s.log ++ self.dueReleases ∧
    self.dueReleases.Sublist
      [Call.vkDestroySampler self.m_sampler, Call.vkDestroyImageView self.m_imageView,
       Call.vmaDestroyImage self.m_image self.m_deviceAllocation] ∧
    self.dueReleases.Nodup ∧
    (Call.vkDestroySampler self.m_sampler ∈ self.dueReleases
      ↔ self.m_sampler ≠ VK_NULL_HANDLE) ∧
    (Call.vkDestroyImageView self.m_imageView ∈ self.dueReleases
      ↔ self.m_imageView ≠ VK_NULL_HANDLE) ∧
    (Call.vmaDestroyImage self.m_image self.m_deviceAllocation ∈ self.dueReleases
      ↔ self.m_image ≠ VK_NULL_HANDLE) := by
  refine ⟨VETexture_dtor_log h self s, ?_, ?_, ?_, ?_, ?_⟩ <;>
  · unfold VETexture.dueReleases
    by_cases h1 : self.m_sampler = VK_NULL_HANDLE <;>
    by_cases h2 : self.m_imageView = VK_NULL_HANDLE <;>
    by_cases h3 : self.m_image = VK_NULL_HANDLE <;>
    simp [h1, h2, h3]

/-- C5: the file-list constructor on an empty list of file names makes no
call at all (the state and the log are as before), completes with a texture
whose sampler, image view and image are null, and the destructor of that
texture makes no call either. -/
theorem VETexture_ctor_empty {σ : Type} (h : Helpers σ) (name basedir : String)
    (flags : VkImageCreateFlags) (viewType : VkImageViewType) (s : Sys σ) :
    VETexture.ctor h name basedir [] flags viewType s
      = (Constructed.completed (VETexture.fresh name), s) ∧
    (VETexture.fresh name).m_sampler = VK_NULL_HANDLE ∧
    (VETexture.fresh name).m_imageView = VK_NULL_HANDLE ∧
    (VETexture.fresh name).m_image = VK_NULL_HANDLE ∧
    ∀ s' : Sys σ, VETexture.dtor h (VETexture.fresh name) s' = s' := by
  refine ⟨by simp [VETexture.ctor, VETexture.ctorBody], rfl, rfl, rfl, fun s' => ?_⟩
  exact VETexture_dtor_world_of_null h _ s' rfl rfl rfl

/-- C6, as stated, fails: for `2 ^ 32` file names the image view is requested
with layer count `0`, the value of `(uint32_t)texNames.size()`. -/
theorem VETexture_ctor_layerCount_wraps :
    manyNames ≠ [] ∧ manyNames.length = 2 ^ 32 ∧
    (VETexture.ctor okHelpers "array" "media" manyNames 0 VK_IMAGE_VIEW_TYPE_2D_ARRAY start).2.log
      = [Call.vhBufCreateTextureImage "media" manyNames 0,
         Call.vhBufCreateImageView 11 VK_FORMAT_R8G8B8A8_UNORM VK_IMAGE_VIEW_TYPE_2D_ARRAY 0
           VK_IMAGE_ASPECT_COLOR_BIT,
         Call.vhBufCreateTextureSampler] := by
  have hlen := manyNames_length
  have hne : manyNames.length ≠ 0 := by rw [hlen]; norm_num
  refine ⟨fun hnil => hne (by rw [hnil]; rfl), hlen, ?_⟩
  have hw : toUInt32 manyNames.length = 0 := by rw [hlen]; norm_num [toUInt32]
  simp only [VETexture.ctor, VETexture.ctorBody, hne, if_false, hw, Sys.step]
  rfl

/-- C6, amended: for every non-empty list of `N < 2 ^ 32` file names the
file-list constructor requests, for the image the upload wrote, an image view
with layer count `N`, the view type of the caller, the colour aspect and the
format `R8G8B8A8_UNORM`; for every decoded cube map and whatever `viewType`
the caller passes, the cube-map constructor requests an image view with layer
count `6` and the cube view type, with the format the image upload reported,
and the extent of the texture is the width and height of the decoded data. -/
theorem VETexture_ctor_view_request {σ : Type} (h : Helpers σ) (name basedir : String)
    (texNames : List String) (flags : VkImageCreateFlags) (viewType : VkImageViewType)
    (texCube : texture_cube) (s : Sys σ)
    (hne : texNames ≠ []) (hlt : texNames.length < 2 ^ 32) :
    (VETexture.ctor h name basedir texNames flags viewType s).2.log
      = s.log ++
        [Call.vhBufCreateTextureImage basedir texNames flags,
         Call.vhBufCreateImageView
           (h.vhBufCreateTextureImage basedir texNames flags
             ⟨VK_NULL_HANDLE, VK_NULL_HANDLE, ⟨0, 0⟩⟩ s.world).1.2.image
           VK_FORMAT_R8G8B8A8_UNORM viewType texNames.length VK_IMAGE_ASPECT_COLOR_BIT,
         Call.vhBufCreateTextureSampler] ∧
    (VETexture.ctorCube h name texCube flags viewType s).2.log
      = s.log ++
        [Call.vhBufCreateTexturecubeImage texCube,
         Call.vhBufCreateImageView
           (h.vhBufCreateTexturecubeImage texCube
             ⟨VK_NULL_HANDLE, VK_NULL_HANDLE, 0⟩ s.world).1.2.image
           (h.vhBufCreateTexturecubeImage texCube
             ⟨VK_NULL_HANDLE, VK_NULL_HANDLE, 0⟩ s.world).1.2.format
           VK_IMAGE_VIEW_TYPE_CUBE 6 VK_IMAGE_ASPECT_COLOR_BIT,
         Call.vhBufCreateTextureSampler] ∧
    ∃ t, (VETexture.ctorCube h name texCube flags viewType s).1 = Constructed.completed t ∧
      t.m_extent = ⟨texCube.extent_x, texCube.extent_y⟩ ∧
      t.m_format = (h.vhBufCreateTexturecubeImage texCube
        ⟨VK_NULL_HANDLE, VK_NULL_HANDLE, 0⟩ s.world).1.2.format := by
  have h0 : texNames.length ≠ 0 := fun hz => hne (List.length_eq_zero.mp hz)
  have hw : toUInt32 texNames.length = texNames.length := Nat.mod_eq_of_lt hlt
  refine ⟨?_, ?_, _, rfl, rfl, rfl⟩
  · simp only [VETexture.ctor, VETexture.ctorBody, h0, if_false, hw, Sys.step]
    simp [VETexture.fresh]
  · simp only [VETexture.ctorCube, VETexture.ctorCubeBody, Sys.step]
    simp [VETexture.fresh]

theorem VETexture_ctor_view_request_witness :
    ["px.png", "nx.png"] ≠ ([] : List String) ∧
    ["px.png", "nx.png"].length < 2 ^ 32 ∧
    ((VETexture.ctor okHelpers "sky" "media" ["px.png", "nx.png"] 0
        VK_IMAGE_VIEW_TYPE_2D_ARRAY start).2.log
      = start.log ++
        [Call.vhBufCreateTextureImage "media" ["px.png", "nx.png"] 0,
         Call.vhBufCreateImageView
           (okHelpers.vhBufCreateTextureImage "media" ["px.png", "nx.png"] 0
             ⟨VK_NULL_HANDLE, VK_NULL_HANDLE, ⟨0, 0⟩⟩ start.world).1.2.image
           VK_FORMAT_R8G8B8A8_UNORM VK_IMAGE_VIEW_TYPE_2D_ARRAY
           ["px.png", "nx.png"].length VK_IMAGE_ASPECT_COLOR_BIT,
         Call.vhBufCreateTextureSampler] ∧
    (VETexture.ctorCube okHelpers "sky" skyCube 0 VK_IMAGE_VIEW_TYPE_2D_ARRAY start).2.log
      = start.log ++
        [Call.vhBufCreateTexturecubeImage skyCube,
         Call.vhBufCreateImageView
           (okHelpers.vhBufCreateTexturecubeImage skyCube
             ⟨VK_NULL_HANDLE, VK_NULL_HANDLE, 0⟩ start.world).1.2.image
           (okHelpers.vhBufCreateTexturecubeImage skyCube
             ⟨VK_NULL_HANDLE, VK_NULL_HANDLE, 0⟩ start.world).1.2.format
           VK_IMAGE_VIEW_TYPE_CUBE 6 VK_IMAGE_ASPECT_COLOR_BIT,
         Call.vhBufCreateTextureSampler] ∧
    ∃ t, (VETexture.ctorCube okHelpers "sky" skyCube 0 VK_IMAGE_VIEW_TYPE_2D_ARRAY start).1
        = Constructed.completed t ∧
      t.m_extent = ⟨skyCube.extent_x, skyCube.extent_y⟩ ∧
      t.m_format = (okHelpers.vhBufCreateTexturecubeImage skyCube
        ⟨VK_NULL_HANDLE, VK_NULL_HANDLE, 0⟩ start.world).1.2.format) :=
  ⟨by decide, by decide,
    VETexture_ctor_view_request okHelpers "sky" "media" ["px.png", "nx.png"] 0
      VK_IMAGE_VIEW_TYPE_2D_ARRAY skyCube start (by decide) (by decide)⟩


/-! ## Material -/

theorem releasedTextures_dueReleases (t : VETexture) :
    releasedTextures t.dueReleases = [] := by
  unfold VETexture.dueReleases releasedTextures
  by_cases h1 : t.m_sampler = VK_NULL_HANDLE <;>
  by_cases h2 : t.m_imageView = VK_NULL_HANDLE <;>
  by_cases h3 : t.m_image = VK_NULL_HANDLE <;>
  simp [h1, h2, h3]

theorem releasedTextures_append (l₁ l₂ : List Call) :
    releasedTextures (l₁ ++ l₂) = releasedTextures l₁ ++ releasedTextures l₂ := by
  simp [releasedTextures, List.filterMap_append]

theorem delete_VETexture_log {σ : Type} (h : Helpers σ) (t : VETexture) (s : Sys σ) :
    (delete_VETexture h (some t) s).log
      = s.log ++ (t.dueReleases ++ [Call.operator_delete t]) := by
  simp [delete_VETexture, Sys.step, VETexture_dtor_log]

/-- What one slot contributes to the log of the material destructor. -/
theorem slot_log {σ : Type} (h : Helpers σ) (p : Option VETexture) (s : Sys σ) :
    (if p ≠ none then delete_VETexture h p s else s).log
      = s.log ++ ([p].reduceOption.map fun t => t.dueReleases ++ [Call.operator_delete t]).flatten := by
  cases p with
  | none => simp
  | some t => simp [delete_VETexture_log]

/-- C7: for every material the destructor releases the textures of the
present slots and no other, each once, in the order diffuse, bump, normal,
height: the log grows by the destructor calls and the storage release of each
present texture in this order, and nothing is logged for an absent slot; a
material with the diffuse slot alone releases exactly one texture. -/
theorem VEMaterial_dtor_releases {σ : Type} (h : Helpers σ) (self : VEMaterial) (s : Sys σ) :
    (VEMaterial.dtor h self s).log
      = s.log ++ (self.presentTextures.map fun t =>
          t.dueReleases ++ [Call.operator_delete t]).flatten ∧
    releasedTextures (VEMaterial.dtor h self s).log
      = releasedTextures s.log ++ self.presentTextures ∧
    (releasedTextures (VEMaterial.dtor h self s).log).length
      = (releasedTextures s.log).length
        + ([self.mapDiffuse, self.mapBump, self.mapNormal, self.mapHeight].filter
            Option.isSome).length ∧
    ∀ t : VETexture,
      releasedTextures (VEMaterial.dtor h ⟨some t, none, none, none⟩ ⟨s.world, []⟩).log = [t] := by
  have key : ∀ m : VEMaterial, ∀ s0 : Sys σ, (VEMaterial.dtor h m s0).log
      = s0.log ++ (m.presentTextures.map fun t =>
          t.dueReleases ++ [Call.operator_delete t]).flatten := by
    intro m s0
    obtain ⟨d, b, n, ht⟩ := m
    simp only [VEMaterial.dtor, slot_log, VEMaterial.presentTextures]
    cases d <;> cases b <;> cases n <;> cases ht <;> simp
  have rel : ∀ m : VEMaterial, ∀ s0 : Sys σ, releasedTextures (VEMaterial.dtor h m s0).log
      = releasedTextures s0.log ++ m.presentTextures := by
    intro m s0
    rw [key, releasedTextures_append]
    congr 1
    generalize m.presentTextures = ts
    induction ts with
    | nil => simp [releasedTextures]
    | cons t ts ih =>
      rw [List.map_cons, List.flatten_cons, releasedTextures_append, releasedTextures_append,
        releasedTextures_dueReleases, ih]
      simp [releasedTextures]
  refine ⟨key self s, rel self s, ?_, fun t => ?_⟩
  · rw [rel, List.length_append]
    obtain ⟨d, b, n, ht⟩ := self
    cases d <;> cases b <;> cases n <;> cases ht <;> simp [VEMaterial.presentTextures]
  · rw [rel]
    simp [releasedTextures, VEMaterial.presentTextures]

/-! ## Sky plane subrenderer -/

/-- What `addEntity` does for an entity with a material and a diffuse texture:
`addMaps` with the one-element list holding the member `m_imageInfo` of the
diffuse texture, then the registration of the base class. -/
theorem Skyplane_addEntity_log {σ : Type} (h : Helpers σ) (address : Nat)
    (material : VEMaterial) (mapDiffuse : VETexture) (s : Sys σ)
    (hd : material.mapDiffuse = some mapDiffuse) :
    (VESubrenderFW_Skyplane.addEntity h ⟨address, some material⟩ s).map Sys.log
      = some (s.log ++ [Call.addMaps address [mapDiffuse.m_imageInfo],
                        Call.VESubrender_addEntity address]) := by
  simp [VESubrenderFW_Skyplane.addEntity, hd, Sys.step]

/-- C9, the code at a texture built by the file-list constructor from one
file, in the diffuse slot of an entity: the constructor leaves `m_imageInfo`
as it was (all zero) next to the image view `7` and the sampler `9` it
created, and `addEntity` hands `addMaps` that unset descriptor, not the
descriptor of the image view, the sampler and the shader-read-only layout. -/
theorem Skyplane_addEntity_unset_imageInfo :
    (VETexture.ctor okHelpers "sky" "media" ["sky.png"] 0 VK_IMAGE_VIEW_TYPE_2D start).1
      = Constructed.completed skyTexture ∧
    (VESubrenderFW_Skyplane.addEntity okHelpers skyEntity start).map Sys.log
      = some [Call.addMaps 1 [⟨VK_NULL_HANDLE, VK_NULL_HANDLE, VK_IMAGE_LAYOUT_UNDEFINED⟩],
              Call.VESubrender_addEntity 1] ∧
    describedImageInfo skyTexture = ⟨9, 7, VK_IMAGE_LAYOUT_SHADER_READ_ONLY_OPTIMAL⟩ ∧
    skyTexture.m_imageInfo ≠ describedImageInfo skyTexture := by
  refine ⟨?_, ?_, rfl, by decide⟩
  · simp [VETexture.ctor, VETexture.ctorBody, VETexture.fresh, okHelpers, skyTexture, Sys.step,
      start]
  · simp [VESubrenderFW_Skyplane.addEntity, skyEntity, skyTexture, Sys.step, start]


end ve
